import Mathlib

/-!
Verification development for the `cargo-credential-netrc` provider
(`src/main.rs`).  The program is a cargo credential provider: `perform`
parses its command-line arguments with clap, dispatches on the action
kind, parses the registry index URL, extracts the host, loads the
user's netrc database, looks the host up, renders the user-supplied
handlebars format template against the matched entry, and returns a
`CredentialResponse::Get` envelope.

The embedding is shallow: the file-system read performed by
`Netrc::new()` is passed in as an explicit `Except`-valued parameter,
and the external crates the source calls (`clap`, `url`, `handlebars`,
`netrc`) are modelled by executable Lean functions whose doc comments
state the modelled scope.
-/

deriving instance DecidableEq for Except

namespace CCNetrc

/-- Literal `{` character (written numerically to keep it out of string
literals). -/
def lbrace : Char := Char.ofNat 123

/-- Literal `}` character. -/
def rbrace : Char := Char.ofNat 125

/-! ## Data model (`cargo_credential` types used by `main.rs`) -/

/-- `cargo_credential::RegistryInfo`: `perform` only reads `index_url`,
so only that field is modelled. -/
structure RegistryInfo where
  index_url : String
deriving DecidableEq

/-- `cargo_credential::Action` kinds.  `main.rs` matches
`Action::Get(_)` (ignoring the payload) against everything else, so the
`get` payload is not modelled. -/
inductive Action where
  | get
  | login
  | logout
  | unknown
deriving DecidableEq

/-- `cargo_credential::CacheControl`. -/
inductive CacheControl where
  | never
  | session
  | expires
deriving DecidableEq

/-- The payload of `CredentialResponse::Get`, the only response variant
`main.rs` builds.  The `token` is a `Secret<String>` in the source; the
secrecy wrapper is transparent for value-level reasoning. -/
structure CredentialResponse where
  token : String
  cache : CacheControl
  operationIndependent : Bool
deriving DecidableEq

/-- The dynamic type of the boxed error inside
`cargo_credential::Error::Other(Box<dyn StdError>)`.  `main.rs` wraps
four distinct underlying errors this way: the clap argument-parse
error (line 75), the `url::ParseError` (line 81), the netrc
read/parse error (line 92) and the handlebars render error
(line 105). -/
inductive OtherError where
  | clapError (msg : String)
  | urlParseError (msg : String)
  | netrcError (msg : String)
  | renderError (msg : String)
deriving DecidableEq

/-- `cargo_credential::Error`, restricted to the variants `main.rs`
produces. -/
inductive Error where
  | urlNotSupported
  | notFound
  | operationNotSupported
  | other (e : OtherError)
deriving DecidableEq

/-! ## netrc model (`netrc` crate types used by `main.rs`) -/

/-- A netrc `Authenticator`: the three credential fields read by
`main.rs` (lines 99-101).  Absent fields are empty strings. -/
structure Authenticator where
  login : String
  account : String
  password : String
deriving DecidableEq

/-- The parsed netrc database.  The source's `netrc.hosts` is a map
from host string to `Authenticator`; it is modelled as an association
list queried by exact, case-sensitive string equality, which is what
`HashMap::get(&host)` performs. -/
structure Netrc where
  hosts : List (String × Authenticator)
deriving DecidableEq

/-- `netrc.hosts.get(&host)`: exact-match lookup. -/
def Netrc.get (n : Netrc) (host : String) : Option Authenticator :=
  (n.hosts.find? (fun p => p.1 = host)).map (fun p => p.2)

/-! ## clap model (`Args::try_parse_from`, `main.rs` lines 48-63) -/

/-- The derived `Args` struct: one required positional argument
`format`. -/
structure Args where
  format : String
deriving DecidableEq

/-- Model of clap's `Args::try_parse_from` for the derived parser of
`main.rs`: the first element of the argument list is consumed as the
binary name; `--help`/`--version` requests and unknown flags are parse
errors; exactly one positional argument (the template) is required.
Error payloads are human-readable messages, standing in for
`clap::Error`. -/
def tryParseArgs (argv : List String) : Except String Args :=
  let rest := argv.drop 1
  if rest.any (fun a => a = "--help" || a = "-h") then
    .error "help requested"
  else if rest.any (fun a => a = "--version" || a = "-V") then
    .error "version requested"
  else if rest.any (fun a => a.data.head? = some '-') then
    .error "unexpected flag"
  else
    match rest with
    | [fmt] => .ok { format := fmt }
    | [] => .error "missing required argument format"
    | _ => .error "unexpected argument"

/-! ## handlebars model (`Handlebars::new().render_template`,
`main.rs` lines 96-106)

`main.rs` builds a default registry (`Handlebars::new()`), which does
NOT enable strict mode: a `\x7b\x7bname\x7d\x7d` expression whose name
is a plain variable missing from the data renders as the empty string
instead of failing.  Double-brace output is HTML-escaped by the default
escape function.  Modelled scope: templates made of literal text and
simple `\x7b\x7bname\x7d\x7d` expressions (whitespace around the name
is trimmed).  Only plain identifier names that are not reserved are
substituted; every other expression form — sigil-prefixed tags
(block open/close `#`/`/`, partial `>`, inverted `^`, raw `&`,
decorator `*`, comment `!`, data ref `@`), bracket segments, dotted
paths, numeric or keyword literals, and the built-in helpers the
default registry registers (whose bare invocation is a render error in
the engine) — is conservatively rejected with the generic template
error: in the real engine those forms range from parse/render errors
(`\x7b\x7b#foo\x7d\x7d`, `\x7b\x7b[x\x7d\x7d`, `\x7b\x7b>p\x7d\x7d`,
`\x7b\x7blookup\x7d\x7d`, `\x7b\x7bif\x7d\x7d`) to literal output
(`\x7b\x7btrue\x7d\x7d`), and no theorem quantifies over that
region. -/

/-- Message of the template error raised for a variable expression that
is never closed before the template ends. -/
def unclosedMsg : String := "unclosed variable expression"

/-- Message of the template error raised for a malformed variable
expression (stray brace or invalid name).  Both messages identify the
failing template construct and mention no data values. -/
def invalidMsg : String := "invalid variable expression"

/-- Drop leading and trailing whitespace of a character list
(handlebars accepts `\x7b\x7b name \x7d\x7d`). -/
def trimWs (cs : List Char) : List Char :=
  ((cs.dropWhile Char.isWhitespace).reverse.dropWhile Char.isWhitespace).reverse

/-- An ordinary variable-name character: ASCII letter, digit, or
underscore. -/
def plainChar (c : Char) : Bool :=
  (65 ≤ c.toNat && c.toNat ≤ 90) || (97 ≤ c.toNat && c.toNat ≤ 122) ||
    (48 ≤ c.toNat && c.toNat ≤ 57) || c = '_'

/-- A character that may start an ordinary variable name: ASCII letter
or underscore (a leading digit would be a numeric literal, a leading
sigil a special tag). -/
def plainStart (c : Char) : Bool :=
  (65 ≤ c.toNat && c.toNat ≤ 90) || (97 ≤ c.toNat && c.toNat ≤ 122) ||
    c = '_'

/-- Names that are not ordinary variables even though they look like
plain identifiers: the helpers registered by `Handlebars::new()`
(whose bare invocation is a render error), the template keywords, and
the literal words the engine renders as values. -/
def reservedNames : List String :=
  ["if", "unless", "each", "with", "lookup", "log", "raw",
   "eq", "ne", "gt", "gte", "lt", "lte", "and", "or", "not", "len",
   "helperMissing", "blockHelperMissing", "else", "this",
   "true", "false", "null", "undefined"]

/-- A plain identifier name: nonempty, starts with a letter or
underscore, made of letters, digits and underscores. -/
def plainVarName (cs : List Char) : Bool :=
  match cs with
  | [] => false
  | c :: _ => plainStart c && cs.all plainChar

/-- The gate of the substitution step: a plain identifier that is not
reserved is substituted (non-strict lookup); everything else is a
template error. -/
def nameOk (cs : List Char) : Bool :=
  plainVarName cs && !(reservedNames.contains (String.mk cs))

/-- HTML escape of one character, as the default handlebars escape
function performs on substituted values. -/
def hbEscapeChar (c : Char) : String :=
  if c = '<' then "&lt;"
  else if c = '>' then "&gt;"
  else if c = Char.ofNat 34 then "&quot;"
  else if c = '&' then "&amp;"
  else if c = Char.ofNat 39 then "&#x27;"
  else String.singleton c

/-- HTML escape of a string. -/
def hbEscape (s : String) : String :=
  String.join (s.data.map hbEscapeChar)

/-- Lookup of a variable name in the render data. -/
def hbLookup (data : List (String × String)) (name : String) : Option String :=
  (data.find? (fun p => p.1 = name)).map (fun p => p.2)

/-- The text substituted for a variable expression: the escaped data
value, or the empty string when the name is absent (non-strict mode,
the `Handlebars::new()` default). -/
def substValue (data : List (String × String)) (nameCs : List Char) : String :=
  match hbLookup data (String.mk nameCs) with
  | some v => hbEscape v
  | none => ""

/-- Scanner state of the renderer: outside any expression, after one
`\x7b`, inside a variable expression (accumulated name characters), or
after one closing `\x7d` of an expression. -/
inductive HbState where
  | scanning
  | sawOpen
  | inVar (buf : List Char)
  | sawClose (buf : List Char)

/-- The template scanner/renderer.  Literal text passes through
unchanged; `\x7b\x7bname\x7d\x7d` is replaced by `substValue`; an
expression left open at the end of input, a brace inside a name, a
single `\x7d` inside an expression, or an invalid name is a template
error. -/
def hbRender (data : List (String × String)) :
    List Char → HbState → Except String String
  | [], .scanning => .ok ""
  | [], .sawOpen => .ok (String.singleton lbrace)
  | [], .inVar _ => .error unclosedMsg
  | [], .sawClose _ => .error unclosedMsg
  | c :: rest, .scanning =>
    if c = lbrace then hbRender data rest .sawOpen
    else (hbRender data rest .scanning).map (fun s => String.singleton c ++ s)
  | c :: rest, .sawOpen =>
    if c = lbrace then hbRender data rest (.inVar [])
    else (hbRender data rest .scanning).map
      (fun s => String.singleton lbrace ++ String.singleton c ++ s)
  | c :: rest, .inVar buf =>
    if c = rbrace then hbRender data rest (.sawClose buf)
    else if c = lbrace then .error invalidMsg
    else hbRender data rest (.inVar (buf ++ [c]))
  | c :: rest, .sawClose buf =>
    if c = rbrace then
      if nameOk (trimWs buf) then
        (hbRender data rest .scanning).map
          (fun s => substValue data (trimWs buf) ++ s)
      else .error invalidMsg
    else .error invalidMsg

/-- `handlebars.render_template(tmpl, data)` on the default registry. -/
def renderTemplate (data : List (String × String)) (tmpl : String) :
    Except String String :=
  hbRender data tmpl.data .scanning

/-- The render data built by `main.rs` lines 98-101: the three netrc
fields under the keys `login`, `account`, `password`. -/
def renderData (a : Authenticator) : List (String × String) :=
  [("login", a.login), ("account", a.account), ("password", a.password)]

/-! ## url model (`Url::parse` and `Url::host`, `main.rs` lines 80-88)

Model of the `url` crate restricted to what `perform` observes: whether
the string parses, and its host component.  Modelled scope: an ASCII
scheme followed by `:`; an authority only when an explicit `//`
follows (the crate's special-scheme slash-inference, IDNA/punycode
host encoding, percent-decoding, WHATWG octal/hex IPv4 numbers,
IPv4-mapped IPv6 display and `file`-scheme special cases are outside
the modelled scope and claims do not exercise them).  Domains are
lowercased, IPv4 literals are parsed as dotted decimal quads, IPv6
literals are parsed in brackets and stored as eight 16-bit group
values.  A URL without `//` after the scheme has no host component
(cannot-be-a-base), which is the `_ => UrlNotSupported` arm of
`perform`. -/

/-- `Host` of the `url` crate: domain, IPv4 or IPv6. -/
inductive UrlHost where
  | domain (s : String)
  | ipv4 (a b c d : Nat)
  | ipv6 (ws : List Nat)
deriving DecidableEq

/-- The parsed URL, restricted to the components the program reads
(`path` also holds any query/fragment text, which `perform` never
reads). -/
structure UrlT where
  scheme : String
  host : Option UrlHost
  port : Option Nat
  path : String
deriving DecidableEq

/-- Scheme characters after the first: ASCII alphanumeric, `+`, `-`,
`.`. -/
def isSchemeChar (c : Char) : Bool :=
  c.isAlphanum || c = '+' || c = '-' || c = '.'

/-- Split `scheme ':' rest`: collects scheme characters up to the first
`:`; fails if a non-scheme character appears first or no `:` exists. -/
def takeScheme : List Char → Option (List Char × List Char)
  | [] => none
  | c :: rest =>
    if c = ':' then some ([], rest)
    else if isSchemeChar c then
      (takeScheme rest).map (fun p => (c :: p.1, p.2))
    else none

/-- Lowercase an ASCII letter. -/
def lowerChar (c : Char) : Char :=
  if 65 ≤ c.toNat && c.toNat ≤ 90 then Char.ofNat (c.toNat + 32) else c

/-- Parse a nonempty all-digit run as a decimal number. -/
def parseDecimal (cs : List Char) : Option Nat :=
  if cs.isEmpty || !cs.all Char.isDigit then none
  else some (cs.foldl (fun n c => n * 10 + (c.toNat - 48)) 0)

/-- Parse one IPv4 octet (0-255). -/
def parseOctet (cs : List Char) : Option Nat :=
  match parseDecimal cs with
  | some n => if n ≤ 255 then some n else none
  | none => none

/-- Host text that must be an IPv4 literal: nonempty, digits and dots
only. -/
def isIpv4Text (cs : List Char) : Bool :=
  !cs.isEmpty && cs.all (fun c => c.isDigit || c = '.')

/-- Parse a dotted decimal quad. -/
def parseIpv4 (cs : List Char) : Option (Nat × Nat × Nat × Nat) :=
  match (cs.splitOn '.').map parseOctet with
  | [some a, some b, some c, some d] => some (a, b, c, d)
  | _ => none

/-- Hex digit test (both cases). -/
def isHexDigitChar (c : Char) : Bool :=
  c.isDigit || (97 ≤ c.toNat && c.toNat ≤ 102) || (65 ≤ c.toNat && c.toNat ≤ 70)

/-- Hex digit value. -/
def hexVal (c : Char) : Nat :=
  if c.isDigit then c.toNat - 48
  else if 97 ≤ c.toNat then c.toNat - 87
  else c.toNat - 55

/-- Parse one IPv6 group: one to four hex digits. -/
def parseHexGroup (cs : List Char) : Option Nat :=
  if cs.isEmpty || decide (cs.length > 4) || !cs.all isHexDigitChar then none
  else some (cs.foldl (fun n c => n * 16 + hexVal c) 0)

/-- Split an IPv6 literal at the first `::`, if any. -/
def findDoubleColon : List Char → Option (List Char × List Char)
  | [] => none
  | ':' :: ':' :: rest => some ([], rest)
  | c :: rest => (findDoubleColon rest).map (fun p => (c :: p.1, p.2))

/-- Parse a `:`-separated group list (empty text is an empty list). -/
def parseGroups (cs : List Char) : Option (List Nat) :=
  if cs.isEmpty then some []
  else (cs.splitOn ':').mapM parseHexGroup

/-- Parse an IPv6 literal (text between brackets) into its eight group
values, expanding at most one `::`. -/
def parseIpv6 (cs : List Char) : Option (List Nat) :=
  match findDoubleColon cs with
  | some (l, r) =>
    if (findDoubleColon r).isSome then none
    else
      match parseGroups l, parseGroups r with
      | some gl, some gr =>
        if gl.length + gr.length ≤ 7 then
          some (gl ++ List.replicate (8 - gl.length - gr.length) 0 ++ gr)
        else none
      | _, _ => none
  | none =>
    match parseGroups cs with
    | some gs => if gs.length = 8 then some gs else none
    | none => none

/-- Lowercase hex rendering of one IPv6 group. -/
def hexString (n : Nat) : String := String.mk (Nat.toDigits 16 n)

/-- Length of the zero run starting at index `i`. -/
def zeroRunAt (ws : List Nat) (i : Nat) : Nat :=
  ((ws.drop i).takeWhile (fun w => w = 0)).length

/-- Leftmost-longest run of at least two zero groups, as compressed by
`Ipv6Addr`'s display implementation. -/
def bestZeroRun (ws : List Nat) : Option (Nat × Nat) :=
  (List.range ws.length).foldl
    (fun best i =>
      let len := zeroRunAt ws i
      match best with
      | none => if 2 ≤ len then some (i, len) else none
      | some (_, bl) => if bl < len then some (i, len) else best)
    none

/-- `Ipv6Addr::to_string()`: canonical bracketless form, lowercase hex,
leftmost-longest zero run of length at least two compressed to `::`. -/
def ipv6String (ws : List Nat) : String :=
  match bestZeroRun ws with
  | none => String.intercalate ":" (ws.map hexString)
  | some (i, len) =>
    String.intercalate ":" ((ws.take i).map hexString) ++ "::" ++
      String.intercalate ":" ((ws.drop (i + len)).map hexString)

/-- `Ipv4Addr::to_string()`: dotted decimal form. -/
def ipv4String (a b c d : Nat) : String :=
  toString a ++ "." ++ toString b ++ "." ++ toString c ++ "." ++ toString d

/-- Characters that make a domain invalid in the modelled scope
(non-ASCII is also rejected separately). -/
def badDomainChar (c : Char) : Bool :=
  c = ' ' || c = '[' || c = ']' || c = '%' || c = '\\' || c = '<' ||
    c = '>' || c = '^' || c = '|' || 127 < c.toNat

/-- Parse the host-and-port text of an authority (userinfo already
stripped). -/
def parseHostPort (cs : List Char) : Except String (UrlHost × Option Nat) :=
  match cs with
  | '[' :: rest =>
    let inside := rest.takeWhile (fun c => c ≠ ']')
    match rest.dropWhile (fun c => c ≠ ']') with
    | ']' :: afterBr =>
      match parseIpv6 inside with
      | some ws =>
        match afterBr with
        | [] => .ok (.ipv6 ws, none)
        | ':' :: pcs =>
          if pcs.isEmpty then .ok (.ipv6 ws, none)
          else
            match parseDecimal pcs with
            | some n => if n < 65536 then .ok (.ipv6 ws, some n)
                        else .error "invalid port number"
            | none => .error "invalid port number"
        | _ => .error "invalid IPv6 address"
      | none => .error "invalid IPv6 address"
    | _ => .error "invalid IPv6 address"
  | _ =>
    let hostCs := cs.takeWhile (fun c => c ≠ ':')
    let portRes : Except String (Option Nat) :=
      match cs.dropWhile (fun c => c ≠ ':') with
      | [] => .ok none
      | _ :: pcs =>
        if pcs.isEmpty then .ok none
        else
          match parseDecimal pcs with
          | some n => if n < 65536 then .ok (some n)
                      else .error "invalid port number"
          | none => .error "invalid port number"
    match portRes with
    | .error e => .error e
    | .ok port =>
      if hostCs.isEmpty then .error "empty host"
      else if isIpv4Text hostCs then
        match parseIpv4 hostCs with
        | some (a, b, c, d) => .ok (.ipv4 a b c d, port)
        | none => .error "invalid IPv4 address"
      else
        let dcs := hostCs.map lowerChar
        if dcs.any badDomainChar then .error "invalid domain character"
        else .ok (.domain (String.mk dcs), port)

/-- `Url::parse`.  A URL with `//` after the scheme has an authority
(userinfo before the last `@` is discarded, as `perform` never reads
it); otherwise the URL is cannot-be-a-base and has no host. -/
def urlParse (s : String) : Except String UrlT :=
  match takeScheme s.data with
  | none => .error "relative URL without a base"
  | some (schemeCs, rest) =>
    if schemeCs.isEmpty || !(schemeCs.headD ' ').isAlpha then
      .error "relative URL without a base"
    else
      let scheme := String.mk (schemeCs.map lowerChar)
      match rest with
      | '/' :: '/' :: rest2 =>
        let auth := rest2.takeWhile (fun c => c ≠ '/' && c ≠ '?' && c ≠ '#')
        let path := rest2.dropWhile (fun c => c ≠ '/' && c ≠ '?' && c ≠ '#')
        let hostport := (auth.splitOn '@').getLastD auth
        match parseHostPort hostport with
        | .ok (h, p) => .ok ⟨scheme, some h, p, String.mk path⟩
        | .error e => .error e
      | _ => .ok ⟨scheme, none, none, String.mk rest⟩

/-- The host string `perform` computes from a parsed URL (`main.rs`
lines 84-86): the domain text verbatim, `Ipv4Addr::to_string` dotted
form, or `Ipv6Addr::to_string` canonical bracketless form. -/
def hostString : UrlHost → String
  | .domain s => s
  | .ipv4 a b c d => ipv4String a b c d
  | .ipv6 ws => ipv6String ws

/-! ## `NetrcCredential::perform` (`main.rs` lines 68-120)

The file-system read of `Netrc::new()` (line 91-92) is the only effect;
it is passed in as the explicit `netrcResult` parameter (`.error` models
a read or parse failure of the netrc file). -/

/-- `NetrcCredential::perform`: parse the arguments, dispatch on the
action, and for `Get` run URL parse → host extraction → netrc load →
host lookup → template render → response envelope.  Mirrored arm by
arm from `main.rs`. -/
def perform (netrcResult : Except String Netrc) (registry : RegistryInfo)
    (action : Action) (args : List String) :
    Except Error CredentialResponse :=
  match tryParseArgs args with
  | .error e => .error (.other (.clapError e))
  | .ok parsedArgs =>
    match action with
    | .get =>
      match urlParse registry.index_url with
      | .error e => .error (.other (.urlParseError e))
      | .ok url =>
        match url.host with
        | none => .error .urlNotSupported
        | some h =>
          match netrcResult with
          | .error e => .error (.other (.netrcError e))
          | .ok netrc =>
            match netrc.get (hostString h) with
            | some authenticator =>
              match renderTemplate (renderData authenticator)
                  parsedArgs.format with
              | .error e => .error (.other (.renderError e))
              | .ok token =>
                .ok { token := token, cache := .session,
                      operationIndependent := true }
            | none => .error .notFound
    | _ => .error .operationNotSupported

/-- The tail of the `Get` pipeline after the host string is fixed:
netrc load, exact host lookup, render, response envelope.  Used to
state that host extraction feeds the rest of the pipeline exactly the
string `hostString` produces. -/
def performFromHost (netrcResult : Except String Netrc) (parsedArgs : Args)
    (host : String) : Except Error CredentialResponse :=
  match netrcResult with
  | .error e => .error (.other (.netrcError e))
  | .ok netrc =>
    match netrc.get host with
    | some authenticator =>
      match renderTemplate (renderData authenticator) parsedArgs.format with
      | .error e => .error (.other (.renderError e))
      | .ok token =>
        .ok { token := token, cache := .session, operationIndependent := true }
    | none => .error .notFound

/-- A sample netrc database shared by the concrete instantiations. -/
def exNetrc : Netrc :=
  ⟨[("example.com", ⟨"bob", "", "secret"⟩),
    ("2001:db8::1", ⟨"carol", "", "hunter2"⟩)]⟩

/-- A sample format template. -/
def exFmt : String := "\x7b\x7blogin\x7d\x7d:\x7b\x7bpassword\x7d\x7d"

/-! ## Sanity checks of the embedding on concrete inputs -/

example :
    renderTemplate (renderData ⟨"bob", "", "secret"⟩)
      "\x7b\x7blogin\x7d\x7d:\x7b\x7bpassword\x7d\x7d" = .ok "bob:secret" := by
  decide

example :
    renderTemplate (renderData ⟨"bob", "", "secret"⟩)
      "\x7b\x7bunknown" = .error unclosedMsg := by
  decide

example :
    renderTemplate (renderData ⟨"bob", "", "secret"⟩)
      "\x7b\x7b#foo\x7d\x7d" = .error invalidMsg := by
  decide

example :
    renderTemplate (renderData ⟨"bob", "", "secret"⟩)
      "\x7b\x7b>p\x7d\x7d" = .error invalidMsg := by
  decide

example :
    renderTemplate (renderData ⟨"bob", "", "secret"⟩)
      "\x7b\x7b[x\x7d\x7d" = .error invalidMsg := by
  decide

example :
    renderTemplate (renderData ⟨"bob", "", "secret"⟩)
      "\x7b\x7blookup\x7d\x7d" = .error invalidMsg := by
  decide

example :
    renderTemplate (renderData ⟨"bob", "", "secret"⟩)
      "\x7b\x7bif\x7d\x7d" = .error invalidMsg := by
  decide

example :
    urlParse "sparse+https://Registry.Example.com:8443/api/index/" =
      .ok ⟨"sparse+https", some (.domain "registry.example.com"),
        some 8443, "/api/index/"⟩ := by
  decide

example :
    urlParse "https://[2001:0db8:0000:0000:0000:0000:0000:0001]/i" =
      .ok ⟨"https", some (.ipv6 [8193, 3512, 0, 0, 0, 0, 0, 1]), none, "/i"⟩ := by
  decide

example : hostString (.ipv6 [0, 0, 0, 0, 0, 0, 0, 1]) = "::1" := by
  decide

example :
    urlParse "data:text/plain,hello" =
      .ok ⟨"data", none, none, "text/plain,hello"⟩ := by
  decide

example : urlParse "not a url" = .error "relative URL without a base" := by
  decide

example :
    perform (.ok exNetrc) ⟨"https://example.com/index"⟩ .get
      ["cargo-credential-netrc", exFmt] =
      .ok ⟨"bob:secret", .session, true⟩ := by
  decide

example :
    perform (.ok exNetrc) ⟨"https://other.example.org/index"⟩ .get
      ["cargo-credential-netrc", exFmt] = .error .notFound := by
  decide

example :
    perform (.ok exNetrc) ⟨"https://example.com/index"⟩ .login
      ["cargo-credential-netrc", exFmt] = .error .operationNotSupported := by
  decide

/-! ## Claim theorems -/

/-- C2: for every action kind other than `Get` and for every database
contents (any netrc load outcome), `perform` fails with
`OperationNotSupported`, provided the arguments parse into the required
configuration (argument parsing runs first; see C10). -/
theorem c2_non_get_fails_operation_not_supported
    (netrcResult : Except String Netrc) (registry : RegistryInfo)
    (action : Action) (args : List String) (parsedArgs : Args)
    (hargs : tryParseArgs args = .ok parsedArgs)
    (hne : action ≠ .get) :
    perform netrcResult registry action args =
      .error .operationNotSupported := by
  cases action with
  | get => exact absurd rfl hne
  | login => simp [perform, hargs]
  | logout => simp [perform, hargs]
  | unknown => simp [perform, hargs]

/-- C2 witness: a `login` action with any database fails with
`OperationNotSupported`. -/
theorem c2_witness :
    perform (.ok exNetrc) ⟨"https://example.com/index"⟩ .login
      ["cargo-credential-netrc", exFmt] = .error .operationNotSupported :=
  c2_non_get_fails_operation_not_supported (.ok exNetrc)
    ⟨"https://example.com/index"⟩ .login
    ["cargo-credential-netrc", exFmt] ⟨exFmt⟩ (by decide) (by decide)

/-- C3: a `Get` request whose resolved host has no entry in the login
database fails with exactly `NotFound` — no panic is possible (the
embedding is a total function) and no success response is returned. -/
theorem c3_missing_host_fails_not_found
    (netrc : Netrc) (registry : RegistryInfo) (args : List String)
    (parsedArgs : Args) (url : UrlT) (h : UrlHost)
    (hargs : tryParseArgs args = .ok parsedArgs)
    (hurl : urlParse registry.index_url = .ok url)
    (hhost : url.host = some h)
    (hmiss : netrc.get (hostString h) = none) :
    perform (.ok netrc) registry .get args = .error .notFound := by
  simp [perform, hargs, hurl, hhost, hmiss]

/-- C3 witness: the sample database has no entry for
`other.example.org`, so the `Get` request fails with `NotFound`. -/
theorem c3_witness :
    perform (.ok exNetrc) ⟨"https://other.example.org/index"⟩ .get
      ["cargo-credential-netrc", exFmt] = .error .notFound :=
  c3_missing_host_fails_not_found exNetrc ⟨"https://other.example.org/index"⟩
    ["cargo-credential-netrc", exFmt] ⟨exFmt⟩
    ⟨"https", some (.domain "other.example.org"), none, "/index"⟩
    (.domain "other.example.org") (by decide) (by decide) (by decide) (by decide)

/-- C6: a `Get` request whose `index_url` does not parse as an absolute
URL fails with the URL-parse error kind (`Error::Other` wrapping the
`url::ParseError`), and cannot panic: the embedding is total and
returns exactly this error. -/
theorem c6_malformed_url_fails_url_parse_error
    (netrcResult : Except String Netrc) (registry : RegistryInfo)
    (args : List String) (parsedArgs : Args) (e : String)
    (hargs : tryParseArgs args = .ok parsedArgs)
    (hurl : urlParse registry.index_url = .error e) :
    perform netrcResult registry .get args =
      .error (.other (.urlParseError e)) := by
  simp [perform, hargs, hurl]

/-- C6 witness: `"not a url"` is malformed and the `Get` request fails
with the URL-parse error. -/
theorem c6_witness :
    perform (.ok exNetrc) ⟨"not a url"⟩ .get
      ["cargo-credential-netrc", exFmt] =
      .error (.other (.urlParseError "relative URL without a base")) :=
  c6_malformed_url_fails_url_parse_error (.ok exNetrc) ⟨"not a url"⟩
    ["cargo-credential-netrc", exFmt] ⟨exFmt⟩ "relative URL without a base"
    (by decide) (by decide)

/-- C7: when the netrc database cannot be read or parsed (the load
result is an error), a `Get` request that reaches the load step fails
with the store-unavailable kind (`Error::Other` wrapping the netrc
error), with no retry: `perform` returns this error immediately. -/
theorem c7_store_unavailable
    (registry : RegistryInfo) (args : List String) (parsedArgs : Args)
    (url : UrlT) (h : UrlHost) (e : String)
    (hargs : tryParseArgs args = .ok parsedArgs)
    (hurl : urlParse registry.index_url = .ok url)
    (hhost : url.host = some h) :
    perform (.error e) registry .get args =
      .error (.other (.netrcError e)) := by
  simp [perform, hargs, hurl, hhost]

/-- C7 witness: a failing netrc load surfaces as the wrapped netrc
error. -/
theorem c7_witness :
    perform (.error "~/.netrc: permission denied")
      ⟨"https://example.com/index"⟩ .get ["cargo-credential-netrc", exFmt] =
      .error (.other (.netrcError "~/.netrc: permission denied")) :=
  c7_store_unavailable ⟨"https://example.com/index"⟩
    ["cargo-credential-netrc", exFmt] ⟨exFmt⟩
    ⟨"https", some (.domain "example.com"), none, "/index"⟩
    (.domain "example.com") "~/.netrc: permission denied"
    (by decide) (by decide) (by decide)

/-- C8: every successful `perform` response has `cache = Session` and
`operation_independent = true`: the single success path of `main.rs`
(lines 108-112) hard-codes both fields. -/
theorem c8_success_cache_session_operation_independent
    (netrcResult : Except String Netrc) (registry : RegistryInfo)
    (action : Action) (args : List String) (r : CredentialResponse)
    (h : perform netrcResult registry action args = .ok r) :
    r.cache = .session ∧ r.operationIndependent = true := by
  unfold perform at h
  repeat' split at h
  all_goals simp_all
  cases h
  exact ⟨rfl, rfl⟩

/-- C8 witness: a concrete successful `Get` yields
`cache = Session` and `operation_independent = true`. -/
theorem c8_witness :
    (⟨"bob:secret", .session, true⟩ : CredentialResponse).cache = .session ∧
    (⟨"bob:secret", .session, true⟩ : CredentialResponse).operationIndependent
      = true :=
  c8_success_cache_session_operation_independent (.ok exNetrc)
    ⟨"https://example.com/index"⟩ .get ["cargo-credential-netrc", exFmt]
    ⟨"bob:secret", .session, true⟩ (by decide)

/-- C10: argument parsing precedes action dispatch: for every action
kind and every database, if the arguments do not parse then `perform`
fails with the configuration-parse error (`Error::Other` wrapping the
clap error), not with `OperationNotSupported` and not with any
pipeline error. -/
theorem c10_args_parse_precedes_dispatch
    (netrcResult : Except String Netrc) (registry : RegistryInfo)
    (action : Action) (args : List String) (e : String)
    (h : tryParseArgs args = .error e) :
    perform netrcResult registry action args =
      .error (.other (.clapError e)) := by
  simp [perform, h]

/-- C10 witness: with no template argument, even a `login` action fails
with the configuration-parse error rather than
`OperationNotSupported`. -/
theorem c10_witness :
    perform (.ok exNetrc) ⟨"https://example.com/index"⟩ .login
      ["cargo-credential-netrc"] =
      .error (.other (.clapError "missing required argument format")) :=
  c10_args_parse_precedes_dispatch (.ok exNetrc)
    ⟨"https://example.com/index"⟩ .login ["cargo-credential-netrc"]
    "missing required argument format" (by decide)

/-- C4: for every `index_url` that parses, the `Get` pipeline continues
with exactly the host string produced by `hostString` — the domain text
verbatim, the IPv4 literal in dotted form, or the IPv6 literal in
canonical bracketless form — and a URL with no host component fails
with `UrlNotSupported`. -/
theorem c4_host_extraction
    (netrcResult : Except String Netrc) (registry : RegistryInfo)
    (args : List String) (parsedArgs : Args) (url : UrlT)
    (hargs : tryParseArgs args = .ok parsedArgs)
    (hurl : urlParse registry.index_url = .ok url) :
    perform netrcResult registry .get args =
      match url.host with
      | some h => performFromHost netrcResult parsedArgs (hostString h)
      | none => .error .urlNotSupported := by
  cases hh : url.host with
  | none => simp [perform, hargs, hurl, hh]
  | some h => simp [perform, performFromHost, hargs, hurl, hh]

/-- C4 witness: a domain host is used verbatim, an IPv6 literal is
canonicalized (`2001:0db8:...:0001` → `2001:db8::1`), an IPv4 literal
is used in dotted form, and a host-less URL fails with
`UrlNotSupported`. -/
theorem c4_witness :
    perform (.ok exNetrc) ⟨"https://example.com/index"⟩ .get
        ["cargo-credential-netrc", exFmt] =
      performFromHost (.ok exNetrc) ⟨exFmt⟩ "example.com" ∧
    perform (.ok exNetrc)
        ⟨"https://[2001:0db8:0000:0000:0000:0000:0000:0001]/index"⟩ .get
        ["cargo-credential-netrc", exFmt] =
      performFromHost (.ok exNetrc) ⟨exFmt⟩ "2001:db8::1" ∧
    perform (.ok exNetrc) ⟨"https://127.0.0.1/index"⟩ .get
        ["cargo-credential-netrc", exFmt] =
      performFromHost (.ok exNetrc) ⟨exFmt⟩ "127.0.0.1" ∧
    perform (.ok exNetrc) ⟨"data:text/plain,hello"⟩ .get
        ["cargo-credential-netrc", exFmt] = .error .urlNotSupported := by
  refine ⟨?_, ?_, ?_, ?_⟩
  · exact (c4_host_extraction (.ok exNetrc) ⟨"https://example.com/index"⟩
      ["cargo-credential-netrc", exFmt] ⟨exFmt⟩
      ⟨"https", some (.domain "example.com"), none, "/index"⟩
      (by decide) (by decide)).trans (by decide)
  · exact (c4_host_extraction (.ok exNetrc)
      ⟨"https://[2001:0db8:0000:0000:0000:0000:0000:0001]/index"⟩
      ["cargo-credential-netrc", exFmt] ⟨exFmt⟩
      ⟨"https", some (.ipv6 [8193, 3512, 0, 0, 0, 0, 0, 1]), none, "/index"⟩
      (by decide) (by decide)).trans (by decide)
  · exact (c4_host_extraction (.ok exNetrc) ⟨"https://127.0.0.1/index"⟩
      ["cargo-credential-netrc", exFmt] ⟨exFmt⟩
      ⟨"https", some (.ipv4 127 0 0 1), none, "/index"⟩
      (by decide) (by decide)).trans (by decide)
  · exact (c4_host_extraction (.ok exNetrc) ⟨"data:text/plain,hello"⟩
      ["cargo-credential-netrc", exFmt] ⟨exFmt⟩
      ⟨"data", none, none, "text/plain,hello"⟩
      (by decide) (by decide)).trans (by decide)

/-- C5: `\x7b\x7blogin\x7d\x7d:\x7b\x7bpassword\x7d\x7d` rendered
against an entry with login `bob` and password `secret` yields exactly
`bob:secret`, and `Bearer \x7b\x7bpassword\x7d\x7d` rendered against an
entry with password `tok123` yields exactly `Bearer tok123`: literal
text passes through unchanged and each variable expression is replaced
by the corresponding field value. -/
theorem c5_concrete_renders :
    renderTemplate (renderData ⟨"bob", "", "secret"⟩)
      "\x7b\x7blogin\x7d\x7d:\x7b\x7bpassword\x7d\x7d" = .ok "bob:secret" ∧
    renderTemplate (renderData ⟨"", "", "tok123"⟩)
      "Bearer \x7b\x7bpassword\x7d\x7d" = .ok "Bearer tok123" := by
  exact ⟨by decide, by decide⟩

/-- Render errors are independent of the data values: a failing
template fails with the same message for every data list, and the
message is one of the two fixed construct-describing strings.  The
only data-dependent step of the scanner is the substituted value,
which never reaches an error payload. -/
theorem hbRender_error_indep (data data' : List (String × String)) :
    ∀ (cs : List Char) (st : HbState) (msg : String),
      hbRender data cs st = .error msg →
      hbRender data' cs st = .error msg ∧
        (msg = unclosedMsg ∨ msg = invalidMsg) := by
  intro cs
  induction cs with
  | nil =>
    intro st msg h
    cases st with
    | scanning => simp [hbRender] at h
    | sawOpen => simp [hbRender] at h
    | inVar buf =>
      simp [hbRender] at h
      subst h
      exact ⟨by simp [hbRender], Or.inl rfl⟩
    | sawClose buf =>
      simp [hbRender] at h
      subst h
      exact ⟨by simp [hbRender], Or.inl rfl⟩
  | cons c rest ih =>
    intro st msg h
    cases st with
    | scanning =>
      by_cases hc : c = lbrace
      · simp only [hbRender, if_pos hc] at h ⊢
        exact ih _ _ h
      · simp only [hbRender, if_neg hc] at h ⊢
        cases hr : hbRender data rest .scanning with
        | error e =>
          rw [hr] at h
          simp [Except.map] at h
          subst h
          obtain ⟨h1, h2⟩ := ih _ _ hr
          exact ⟨by rw [h1]; simp [Except.map], h2⟩
        | ok v =>
          rw [hr] at h
          simp [Except.map] at h
    | sawOpen =>
      by_cases hc : c = lbrace
      · simp only [hbRender, if_pos hc] at h ⊢
        exact ih _ _ h
      · simp only [hbRender, if_neg hc] at h ⊢
        cases hr : hbRender data rest .scanning with
        | error e =>
          rw [hr] at h
          simp [Except.map] at h
          subst h
          obtain ⟨h1, h2⟩ := ih _ _ hr
          exact ⟨by rw [h1]; simp [Except.map], h2⟩
        | ok v =>
          rw [hr] at h
          simp [Except.map] at h
    | inVar buf =>
      by_cases hc : c = rbrace
      · simp only [hbRender, if_pos hc] at h ⊢
        exact ih _ _ h
      · by_cases hc2 : c = lbrace
        · simp only [hbRender, if_neg hc, if_pos hc2] at h ⊢
          simp at h
          subst h
          exact ⟨by simp, Or.inr rfl⟩
        · simp only [hbRender, if_neg hc, if_neg hc2] at h ⊢
          exact ih _ _ h
    | sawClose buf =>
      by_cases hc : c = rbrace
      · by_cases hv : nameOk (trimWs buf)
        · simp only [hbRender, if_pos hc, if_pos hv] at h ⊢
          cases hr : hbRender data rest .scanning with
          | error e =>
            rw [hr] at h
            simp [Except.map] at h
            subst h
            obtain ⟨h1, h2⟩ := ih _ _ hr
            exact ⟨by rw [h1]; simp [Except.map], h2⟩
          | ok v =>
            rw [hr] at h
            simp [Except.map] at h
        · simp only [hbRender, if_pos hc, if_neg hv] at h ⊢
          simp at h
          subst h
          exact ⟨by simp, Or.inr rfl⟩
      · simp only [hbRender, if_neg hc] at h ⊢
        simp at h
        subst h
        exact ⟨by simp, Or.inr rfl⟩

/-- C9: when rendering fails inside a `Get` request, the error message
identifies the failing template construct (one of the two fixed
construct-describing messages) and is independent of the entry being
substituted: every entry produces the identical message, so no login,
account, password or rendered-token value can occur in it. -/
theorem c9_render_error_message_has_no_secrets
    (a a' : Authenticator) (tmpl msg : String)
    (h : renderTemplate (renderData a) tmpl = .error msg) :
    renderTemplate (renderData a') tmpl = .error msg ∧
      (msg = unclosedMsg ∨ msg = invalidMsg) :=
  hbRender_error_indep (renderData a) (renderData a') tmpl.data .scanning msg h

/-- C9 witness: an unclosed variable expression fails with the same
construct-describing message for two entries with entirely different
secret values. -/
theorem c9_witness :
    renderTemplate (renderData ⟨"alice", "acc", "hunter2"⟩)
        "token \x7b\x7bpassword" = .error unclosedMsg ∧
      (unclosedMsg = unclosedMsg ∨ unclosedMsg = invalidMsg) :=
  c9_render_error_message_has_no_secrets ⟨"bob", "", "secret"⟩
    ⟨"alice", "acc", "hunter2"⟩ "token \x7b\x7bpassword" unclosedMsg
    (by decide)

/-- C1 counterexample: the default registry of `Handlebars::new()` does
not enable strict mode, so the template `\x7b\x7bunknown\x7d\x7d`
renders successfully as the empty string instead of failing with a
template error, and a full `Get` request using it succeeds with an
empty token. -/
theorem c1_counterexample :
    renderTemplate (renderData ⟨"bob", "", "secret"⟩)
        "\x7b\x7bunknown\x7d\x7d" = .ok "" ∧
      perform (.ok exNetrc) ⟨"https://example.com/index"⟩ .get
        ["cargo-credential-netrc", "\x7b\x7bunknown\x7d\x7d"] =
        .ok ⟨"", .session, true⟩ := by
  exact ⟨by decide, by decide⟩

/-- A list with no character satisfying the predicate is unchanged by
`dropWhile`. -/
theorem dropWhile_of_forall_not (p : Char → Bool) (l : List Char)
    (h : ∀ c ∈ l, ¬ p c) : l.dropWhile p = l := by
  cases l with
  | nil => rfl
  | cons c t => simp [List.dropWhile, h c (List.mem_cons_self c t)]

/-- A name without whitespace is unchanged by trimming. -/
theorem trimWs_eq_self (cs : List Char)
    (h : ∀ c ∈ cs, ¬ c.isWhitespace) : trimWs cs = cs := by
  unfold trimWs
  rw [dropWhile_of_forall_not _ _ h]
  rw [dropWhile_of_forall_not _ _ (fun c hc => h c (List.mem_reverse.mp hc))]
  exact List.reverse_reverse cs

/-- Scanning a variable name (no braces) inside an expression that is
closed right at the end of the template substitutes the accumulated
name. -/
theorem hbRender_inVar_close (data : List (String × String)) :
    ∀ (cs buf : List Char), (∀ c ∈ cs, c ≠ lbrace ∧ c ≠ rbrace) →
      hbRender data (cs ++ [rbrace, rbrace]) (.inVar buf) =
        if nameOk (trimWs (buf ++ cs)) then
          .ok (substValue data (trimWs (buf ++ cs)) ++ "")
        else .error invalidMsg := by
  intro cs
  induction cs with
  | nil =>
    intro buf _
    by_cases hv : nameOk (trimWs buf)
    · simp [hbRender, hv, Except.map]
    · simp [hbRender, hv]
  | cons c rest ih =>
    intro buf h
    obtain ⟨hcl, hcr⟩ := h c (List.mem_cons_self c rest)
    have hrest : ∀ x ∈ rest, x ≠ lbrace ∧ x ≠ rbrace :=
      fun x hx => h x (List.mem_cons_of_mem c hx)
    simp only [List.cons_append, hbRender, if_neg hcr, if_neg hcl,
      List.append_eq]
    rw [ih (buf ++ [c]) hrest]
    simp

/-- An ordinary variable-name character is not whitespace and not a
brace. -/
theorem plainChar_spec (c : Char) (h : plainChar c = true) :
    c.isWhitespace = false ∧ c ≠ lbrace ∧ c ≠ rbrace := by
  simp only [plainChar, Bool.or_eq_true, Bool.and_eq_true,
    decide_eq_true_eq] at h
  refine ⟨?_, ?_, ?_⟩
  · cases hcw : c.isWhitespace with
    | false => rfl
    | true =>
      simp only [Char.isWhitespace, Bool.or_eq_true,
        decide_eq_true_eq] at hcw
      have hcw' : c = ' ' ∨ c = '\t' ∨ c = '\x0d' ∨ c = '\n' := by tauto
      rcases hcw' with h1 | h1 | h1 | h1 <;> subst h1 <;> revert h <;> decide
  · intro he
    subst he
    revert h
    decide
  · intro he
    subst he
    revert h
    decide

/-- C1 amended: for every plain identifier variable name (letter or
underscore, then letters, digits, underscores) outside the recognized
set `login`, `account`, `password` and not a reserved helper, keyword
or literal name, the template `\x7b\x7bname\x7d\x7d` renders
successfully against every entry, substituting the empty string for
the unrecognized variable (the non-strict default of
`Handlebars::new()`), so the output never contains the literal
expression text. -/
theorem c1_amended_unknown_variable_renders_empty
    (a : Authenticator) (name : String)
    (h1 : name ≠ "login") (h2 : name ≠ "account") (h3 : name ≠ "password")
    (hplain : plainVarName name.data = true)
    (hres : reservedNames.contains name = false) :
    renderTemplate (renderData a) ("\x7b\x7b" ++ name ++ "\x7d\x7d") =
      .ok "" := by
  have hall : ∀ c ∈ name.data, plainChar c = true := by
    cases hd : name.data with
    | nil =>
      rw [hd] at hplain
      exact absurd hplain (by decide)
    | cons c rest =>
      rw [hd] at hplain
      simp only [plainVarName, Bool.and_eq_true, List.all_eq_true] at hplain
      intro x hx
      exact hplain.2 x hx
  have hmk : String.mk name.data = name := rfl
  have hdata : ("\x7b\x7b" ++ name ++ "\x7d\x7d").data =
      lbrace :: lbrace :: (name.data ++ [rbrace, rbrace]) := by
    rw [String.data_append, String.data_append]
    rfl
  unfold renderTemplate
  rw [hdata]
  simp only [hbRender, if_pos rfl]
  rw [hbRender_inVar_close (renderData a) name.data []
    (fun c hc => ⟨(plainChar_spec c (hall c hc)).2.1,
      (plainChar_spec c (hall c hc)).2.2⟩)]
  simp only [List.nil_append]
  rw [trimWs_eq_self name.data
    (fun c hc => by simp [(plainChar_spec c (hall c hc)).1])]
  have hok : nameOk name.data = true := by
    unfold nameOk
    rw [hmk, hplain, hres]
    rfl
  rw [if_pos hok]
  have hsub : substValue (renderData a) name.data = "" := by
    unfold substValue
    rw [hmk]
    simp [hbLookup, renderData, List.find?, Ne.symm h1, Ne.symm h2,
      Ne.symm h3]
  rw [hsub]
  rfl

/-- C1 amended witness: the template `\x7b\x7bunknown\x7d\x7d` renders
as the empty string against a concrete entry. -/
theorem c1_amended_witness :
    renderTemplate (renderData ⟨"bob", "", "secret"⟩)
      ("\x7b\x7b" ++ "unknown" ++ "\x7d\x7d") = .ok "" :=
  c1_amended_unknown_variable_renders_empty ⟨"bob", "", "secret"⟩ "unknown"
    (by decide) (by decide) (by decide) (by decide) (by decide)

end CCNetrc
